import Mathlib

/-!
Verification of the template-driven content mapping and slide-assembly
pipeline of the `presto` repository.

The Python sources are shallowly embedded: JSON records become the
inductive `JValue` (with `JValue.null` playing the role of Python's
`None`, which the code also uses as its "absent" marker), the module
`template_config.py` becomes `TemplateConfig`, the module
`design_properties_extractor.py` becomes `DesignExtractor` (exact
rational arithmetic standing in for the float arithmetic of the
source, which agrees with it on every comparison proved here), and the
slide-assembly code of `enhanced_presentation_generator.py` becomes
`Generator`, with the third-party pieces (layout list, text frame,
substitution engine) modelled as explicit data.
-/

/-- A JSON-like Python value.  `null` doubles as Python `None`. -/
inductive JValue where
  | null : JValue
  | bool (b : Bool) : JValue
  | num (q : ℚ) : JValue
  | str (s : String) : JValue
  | list (xs : List JValue) : JValue
  | obj (fields : List (String × JValue)) : JValue

namespace JValue

/-- `isinstance(value, list)` of the source. -/
def isList : JValue → Bool
  | .list _ => true
  | _ => false

/-- `value is None` of the source. -/
def isNone : JValue → Bool
  | .null => true
  | _ => false

end JValue

/-- Python `s.split(sep)` for a single-character separator: always at
least one (possibly empty) field, empty fields kept. -/
def pySplitChar (sep : Char) : List Char → List (List Char)
  | [] => [[]]
  | c :: rest =>
      let r := pySplitChar sep rest
      if c = sep then [] :: r
      else
        match r with
        | [] => [[c]]
        | w :: ws => (c :: w) :: ws

/-- `json_path.split('.')` of the source. -/
def pySplitDot (s : String) : List String :=
  (pySplitChar '.' s.data).map String.mk

namespace TemplateConfig

/-- The exceptions a single Python subscript `value[key]` with a string
key can raise: `KeyError` on a dict without the key, `TypeError` on
any non-dict.  These are exactly the classes caught by
`get_json_value_by_path`. -/
inductive PyErr where
  | keyError : PyErr
  | typeError : PyErr
deriving Repr, DecidableEq

/-- One step `value = value[key]` of the loop in
`get_json_value_by_path` (`template_config.py`, line 186), before the
surrounding `try`. -/
def subscript (v : JValue) (key : String) : Except PyErr JValue :=
  match v with
  | .obj fields =>
      match fields.lookup key with
      | some w => .ok w
      | none => .error .keyError
  | _ => .error .typeError

/-- The whole `for key in keys` loop of `get_json_value_by_path`,
still inside the `try`: the first raised error propagates. -/
def walkPath (v : JValue) : List String → Except PyErr JValue
  | [] => .ok v
  | key :: keys =>
      match subscript v key with
      | .ok w => walkPath w keys
      | .error e => .error e

/-- `TemplateConfig.get_json_value_by_path` (`template_config.py`,
lines 171-189): split the dotted path, walk the record, and turn any
`KeyError`/`TypeError` into `None` (here `JValue.null`). -/
def get_json_value_by_path (data : JValue) (json_path : String) : JValue :=
  match walkPath data (pySplitDot json_path) with
  | .ok v => v
  | .error _ => .null

/-- Written from the spec's words ("splits the path on `.` and walks
the record; any missing key or type mismatch yields absent"): an
`Option`-valued recursive descent, `none` meaning absent. -/
def resolveSpec (v : JValue) : List String → Option JValue
  | [] => some v
  | key :: keys =>
      match v with
      | .obj fields =>
          match fields.lookup key with
          | some w => resolveSpec w keys
          | none => none
      | _ => none

theorem walkPath_toOption (v : JValue) (keys : List String) :
    (walkPath v keys).toOption = resolveSpec v keys := by
  induction keys generalizing v with
  | nil => rfl
  | cons key keys ih =>
      cases v with
      | obj fields =>
          simp only [walkPath, subscript, resolveSpec]
          cases fields.lookup key with
          | some w => simpa using ih w
          | none => rfl
      | null => rfl
      | bool b => rfl
      | num q => rfl
      | str s => rfl
      | list xs => rfl

/-- C1: For every content record and dotted path, `get_json_value_by_path`
splits the path on `.` and walks the record: when every segment is
present it returns the exact nested value, and on any missing key or
type mismatch (a segment applied to a non-mapping) it returns absent
(`null`, Python `None`).  Totality of the embedding reflects that the
only exceptions the loop can raise are the `KeyError`/`TypeError` the
function catches, so it never raises. -/
theorem get_json_value_by_path_resolves (data : JValue) (json_path : String) :
    get_json_value_by_path data json_path
      = (resolveSpec data (pySplitDot json_path)).getD .null := by
  rw [get_json_value_by_path, ← walkPath_toOption]
  cases walkPath data (pySplitDot json_path) <;> rfl

/-- The `ContentType` enumeration of `template_config.py`. -/
inductive ContentType where
  | text | bullet_list | table | image | title | subtitle
deriving DecidableEq, Repr

/-- The `PlaceholderMapping` dataclass (formatting options omitted:
nothing in the embedded code reads them). -/
structure PlaceholderMapping where
  placeholder_index : Nat
  content_type : ContentType
  json_path : String
deriving Repr

/-- The `SlideConfig` dataclass. -/
structure SlideConfig where
  slide_key : String
  layout_index : Nat
  placeholders : List PlaceholderMapping
  slide_title_path : Option String := none
deriving Repr

/-- The default configuration built by
`TemplateConfig._create_default_config`. -/
def slides_config : List SlideConfig :=
  [ { slide_key := "title_slide", layout_index := 0,
      placeholders :=
        [ { placeholder_index := 0, content_type := .title,
            json_path := "presentation_data.title_slide.title" },
          { placeholder_index := 1, content_type := .subtitle,
            json_path := "presentation_data.title_slide.subtitle" } ],
      slide_title_path := some "presentation_data.title_slide.title" },
    { slide_key := "benefits_slide", layout_index := 1,
      placeholders :=
        [ { placeholder_index := 0, content_type := .title,
            json_path := "presentation_data.benefits_slide.slide_title" },
          { placeholder_index := 1, content_type := .bullet_list,
            json_path := "presentation_data.benefits_slide.text_body" },
          { placeholder_index := 2, content_type := .image,
            json_path := "presentation_data.benefits_slide.image_description" } ],
      slide_title_path := some "presentation_data.benefits_slide.slide_title" },
    { slide_key := "impact_slide", layout_index := 1,
      placeholders :=
        [ { placeholder_index := 0, content_type := .title,
            json_path := "presentation_data.impact_slide.slide_title" },
          { placeholder_index := 1, content_type := .table,
            json_path := "presentation_data.impact_slide.table_data" } ],
      slide_title_path := some "presentation_data.impact_slide.slide_title" } ]

/-- The body of the inner `for placeholder in slide_config.placeholders`
loop of `validate_data_structure` (`template_config.py`, lines 211-218):
the errors this placeholder contributes. -/
def placeholderErrors (data : JValue) (p : PlaceholderMapping) : List String :=
  let value := get_json_value_by_path data p.json_path
  if value.isNone then
    ["Missing data for path: " ++ p.json_path]
  else if p.content_type == .table && !value.isList then
    ["Table data must be a list: " ++ p.json_path]
  else if p.content_type == .bullet_list && !value.isList then
    ["Bullet list data must be a list: " ++ p.json_path]
  else
    []

/-- The body of the outer `for slide_config in self.slides_config` loop
of `validate_data_structure` (`template_config.py`, lines 203-218): a
missing slide block contributes one error and `continue`s past the
placeholder checks. -/
def slideErrors (data : JValue) (cfg : SlideConfig) : List String :=
  let slide_data :=
    get_json_value_by_path data ("presentation_data." ++ cfg.slide_key)
  if slide_data.isNone then
    ["Missing slide data for: " ++ cfg.slide_key]
  else
    cfg.placeholders.flatMap (placeholderErrors data)

/-- `TemplateConfig.validate_data_structure` (`template_config.py`,
lines 191-220), parameterized by the instance's `slides_config`. -/
def validate_data_structure (cfgs : List SlideConfig) (data : JValue) :
    List String :=
  cfgs.flatMap (slideErrors data)

theorem placeholderErrors_table (data : JValue) (p : PlaceholderMapping)
    (hn : (get_json_value_by_path data p.json_path).isNone = false)
    (hl : (get_json_value_by_path data p.json_path).isList = false)
    (ht : p.content_type = .table) :
    placeholderErrors data p = ["Table data must be a list: " ++ p.json_path] := by
  simp [placeholderErrors, hn, hl, ht]

theorem placeholderErrors_bullet (data : JValue) (p : PlaceholderMapping)
    (hn : (get_json_value_by_path data p.json_path).isNone = false)
    (hl : (get_json_value_by_path data p.json_path).isList = false)
    (ht : p.content_type = .bullet_list) :
    placeholderErrors data p
      = ["Bullet list data must be a list: " ++ p.json_path] := by
  simp [placeholderErrors, hn, hl, ht]

theorem mem_validate_of_mem_slideErrors {cfgs : List SlideConfig}
    {data : JValue} {cfg : SlideConfig} {msg : String}
    (hc : cfg ∈ cfgs) (hm : msg ∈ slideErrors data cfg) :
    msg ∈ validate_data_structure cfgs data := by
  simp only [validate_data_structure, List.mem_flatMap]
  exact ⟨cfg, hc, hm⟩

/-- C2: validation collects all errors rather than stopping at the
first: whenever the record's `presentation_data.benefits_slide` block
is absent, the default configuration's error list contains the message
naming `benefits_slide`; and simultaneously, for every configured
placeholder of content type `table` or `bullet_list` whose slide block
is present and whose path resolves to a non-list value, the list
contains the corresponding "must be a list" error for that path. -/
theorem validate_data_structure_collects (cfgs : List SlideConfig) (data : JValue) :
    ((get_json_value_by_path data "presentation_data.benefits_slide").isNone = true →
      "Missing slide data for: benefits_slide"
        ∈ validate_data_structure slides_config data)
    ∧ (∀ cfg ∈ cfgs, ∀ p ∈ cfg.placeholders,
        (get_json_value_by_path data
            ("presentation_data." ++ cfg.slide_key)).isNone = false →
        (get_json_value_by_path data p.json_path).isNone = false →
        (get_json_value_by_path data p.json_path).isList = false →
        (p.content_type = .table →
          ("Table data must be a list: " ++ p.json_path)
            ∈ validate_data_structure cfgs data)
        ∧ (p.content_type = .bullet_list →
          ("Bullet list data must be a list: " ++ p.json_path)
            ∈ validate_data_structure cfgs data)) := by
  constructor
  · intro hmiss
    refine @mem_validate_of_mem_slideErrors slides_config data
      (slides_config.get ⟨1, by simp [slides_config]⟩) _ ?_ ?_
    · simp [slides_config]
    · simp [slides_config, slideErrors, hmiss]
  · intro cfg hc p hp hblock hn hl
    refine ⟨fun ht => ?_, fun ht => ?_⟩
    · apply mem_validate_of_mem_slideErrors hc
      simp only [slideErrors, hblock, Bool.false_eq_true, if_false]
      rw [List.mem_flatMap]
      exact ⟨p, hp, by rw [placeholderErrors_table data p hn hl ht]; simp⟩
    · apply mem_validate_of_mem_slideErrors hc
      simp only [slideErrors, hblock, Bool.false_eq_true, if_false]
      rw [List.mem_flatMap]
      exact ⟨p, hp, by rw [placeholderErrors_bullet data p hn hl ht]; simp⟩

/-- A record whose `presentation_data` block holds only an
`impact_slide` whose `table_data` is a string: `benefits_slide` is
absent and the table value is not a list. -/
def exampleBadRecord : JValue :=
  .obj [("presentation_data", .obj
    [("title_slide", .obj
      [("title", .str "T"), ("subtitle", .str "S")]),
     ("impact_slide", .obj
      [("slide_title", .str "Impact"),
       ("table_data", .str "not a list")])])]

theorem validate_data_structure_collects_witness :
    "Missing slide data for: benefits_slide"
      ∈ validate_data_structure slides_config exampleBadRecord
    ∧ "Table data must be a list: presentation_data.impact_slide.table_data"
      ∈ validate_data_structure slides_config exampleBadRecord := by
  have h := validate_data_structure_collects slides_config exampleBadRecord
  refine ⟨h.1 (by decide), ?_⟩
  have h2 := (h.2 (slides_config.get ⟨2, by simp [slides_config]⟩)
      (by simp [slides_config])
      ((slides_config.get ⟨2, by simp [slides_config]⟩).placeholders.get
        ⟨1, by simp [slides_config]⟩)
      (by simp [slides_config])
      (by decide) (by decide) (by decide)).1 (by decide)
  simpa [slides_config] using h2

theorem missing_path_ne_missing_slide (p k : String) :
    "Missing data for path: " ++ p ≠ "Missing slide data for: " ++ k := by
  intro h
  have hd := congrArg String.data h
  rw [String.data_append, String.data_append] at hd
  simp at hd

/-- C10: when a configured slide's data block is entirely absent,
`validate_data_structure` emits exactly one error for that slide (the
missing-slide-data message) and skips every per-placeholder check of
that slide: no "Missing data for path" error is reported for any of
its placeholders, and the slide's contribution does not depend on its
placeholder list at all. -/
theorem validate_missing_block_single_error (cfg : SlideConfig) (data : JValue)
    (h : (get_json_value_by_path data
        ("presentation_data." ++ cfg.slide_key)).isNone = true) :
    validate_data_structure [cfg] data
        = ["Missing slide data for: " ++ cfg.slide_key]
    ∧ (∀ p ∈ cfg.placeholders,
        ("Missing data for path: " ++ p.json_path) ∉ slideErrors data cfg)
    ∧ (∀ ps, slideErrors data { cfg with placeholders := ps }
        = slideErrors data cfg) := by
  refine ⟨?_, ?_, ?_⟩
  · simp [validate_data_structure, slideErrors, h]
  · intro p _ hmem
    rw [slideErrors] at hmem
    simp only [h, if_true] at hmem
    rw [List.mem_singleton] at hmem
    exact missing_path_ne_missing_slide p.json_path cfg.slide_key hmem
  · intro ps
    simp [slideErrors, h]

/-- A record with no `presentation_data` block at all: every slide
block of the default configuration is absent. -/
def exampleEmptyRecord : JValue := .obj []

theorem validate_missing_block_single_error_witness :
    validate_data_structure [slides_config.get ⟨1, by simp [slides_config]⟩]
        exampleEmptyRecord
      = ["Missing slide data for: benefits_slide"]
    ∧ ("Missing data for path: presentation_data.benefits_slide.text_body")
      ∉ slideErrors exampleEmptyRecord
          (slides_config.get ⟨1, by simp [slides_config]⟩) := by
  have h := validate_missing_block_single_error
    (slides_config.get ⟨1, by simp [slides_config]⟩) exampleEmptyRecord
    (by decide)
  refine ⟨by simpa [slides_config] using h.1, ?_⟩
  have h2 := h.2.1 ((slides_config.get
      ⟨1, by simp [slides_config]⟩).placeholders.get ⟨1, by simp [slides_config]⟩)
    (by simp [slides_config])
  simpa [slides_config] using h2

end TemplateConfig

namespace DesignExtractor

/-- Python `int(x)` on a number: truncation toward zero. -/
def pyInt (q : ℚ) : Int := if q < 0 then ⌈q⌉ else ⌊q⌋

/-- Python `abs(x)`. -/
def pyAbs (q : ℚ) : ℚ := if q < 0 then -q else q

/-- Python `x % 1.0` (divisor positive): `x` minus its floor. -/
def pyMod1 (q : ℚ) : ℚ := q - ⌊q⌋

/-- The `slide_dimensions` record built by
`DesignPropertiesExtractor.extract_slide_dimensions`.  The field
`aspect` embeds the source's aspect-ratio entry. -/
structure SlideDims where
  width_inches : ℚ
  width_emu : Int
  height_inches : ℚ
  height_emu : Int
  aspect : ℚ
  format : String

/-- `DesignPropertiesExtractor.extract_slide_dimensions`
(`design_properties_extractor.py`, lines 48-76): a width above 1000 is
taken to be native EMU and divided by 914400 to get inches, otherwise
both values are inches and are multiplied by 914400 to get EMU; the
format label compares the inch aspect against 16/9 with tolerance
0.1. -/
def extract_slide_dimensions (width_val height_val : ℚ) : SlideDims :=
  if width_val > 1000 then
    let wi := width_val / 914400
    let hi := height_val / 914400
    { width_inches := wi, width_emu := pyInt width_val,
      height_inches := hi, height_emu := pyInt height_val,
      aspect := wi / hi,
      format := if pyAbs (wi / hi - 16 / 9) < 1 / 10
        then "Widescreen (16:9)" else "Custom" }
  else
    { width_inches := width_val, width_emu := pyInt (width_val * 914400),
      height_inches := height_val, height_emu := pyInt (height_val * 914400),
      aspect := width_val / height_val,
      format := if pyAbs (width_val / height_val - 16 / 9) < 1 / 10
        then "Widescreen (16:9)" else "Custom" }

/-- C3: for positive slide dimensions, `extract_slide_dimensions`
treats a width above 1000 as native EMU (dividing by 914400 for
inches) and otherwise treats both values as inches (multiplying by
914400 for EMU); the label is "Widescreen (16:9)" exactly when the
width/height ratio is within 0.1 of 16/9 and "Custom" otherwise; in
particular width 12192000 with height 6858000 is labelled widescreen
and width 10 with height 7.5 is labelled custom. -/
theorem extract_slide_dimensions_spec (w h : ℚ) (hw : 0 < w) (hh : 0 < h) :
    (w > 1000 →
      (extract_slide_dimensions w h).width_inches = w / 914400
      ∧ (extract_slide_dimensions w h).height_inches = h / 914400
      ∧ (extract_slide_dimensions w h).width_emu = pyInt w
      ∧ (extract_slide_dimensions w h).height_emu = pyInt h)
    ∧ (¬ w > 1000 →
      (extract_slide_dimensions w h).width_inches = w
      ∧ (extract_slide_dimensions w h).height_inches = h
      ∧ (extract_slide_dimensions w h).width_emu = pyInt (w * 914400)
      ∧ (extract_slide_dimensions w h).height_emu = pyInt (h * 914400))
    ∧ ((extract_slide_dimensions w h).format = "Widescreen (16:9)"
        ↔ pyAbs (w / h - 16 / 9) < 1 / 10)
    ∧ ((extract_slide_dimensions w h).format ≠ "Widescreen (16:9)"
        → (extract_slide_dimensions w h).format = "Custom")
    ∧ (extract_slide_dimensions 12192000 6858000).format = "Widescreen (16:9)"
    ∧ (extract_slide_dimensions 10 (15 / 2)).format = "Custom" := by
  have hh' : h ≠ 0 := ne_of_gt hh
  have hq : w / 914400 / (h / 914400) = w / h := by
    field_simp
  refine ⟨?_, ?_, ?_, ?_,
    by norm_num [extract_slide_dimensions, pyAbs],
    by norm_num [extract_slide_dimensions, pyAbs]⟩
  · intro hgt
    simp [extract_slide_dimensions, hgt]
  · intro hle
    simp [extract_slide_dimensions, hle]
  · by_cases hgt : w > 1000 <;>
      simp [extract_slide_dimensions, hgt, hq]
  · by_cases hgt : w > 1000 <;>
      simp [extract_slide_dimensions, hgt, hq]

theorem extract_slide_dimensions_spec_witness :
    (extract_slide_dimensions 12192000 6858000).format = "Widescreen (16:9)" :=
  (extract_slide_dimensions_spec 12192000 6858000 (by norm_num)
    (by norm_num)).2.2.2.2.1

/-- Value of one hex digit, upper or lower case. -/
def hexDigitVal (c : Char) : Option Nat :=
  if '0' ≤ c ∧ c ≤ '9' then some (c.toNat - 48)
  else if 'a' ≤ c ∧ c ≤ 'f' then some (c.toNat - 87)
  else if 'A' ≤ c ∧ c ≤ 'F' then some (c.toNat - 55)
  else none

/-- Python `int(two_hex_digits, 16)`. -/
def hexPair (c1 c2 : Char) : Option Nat := do
  let hi ← hexDigitVal c1
  let lo ← hexDigitVal c2
  pure (16 * hi + lo)

/-- `DesignPropertiesExtractor.hex_to_rgb`
(`design_properties_extractor.py`, lines 78-81): strip leading `#`
and parse the three two-digit groups at offsets 0, 2, 4 (as in the
source, characters past the sixth are ignored).  `none` embeds the
`ValueError` Python's `int(_, 16)` raises on a non-hex digit. -/
def hex_to_rgb (hex_color : String) : Option (Nat × Nat × Nat) :=
  match hex_color.data.dropWhile (· = '#') with
  | c0 :: c1 :: c2 :: c3 :: c4 :: c5 :: _ =>
      match hexPair c0 c1, hexPair c2 c3, hexPair c4 c5 with
      | some r, some g, some b => some (r, g, b)
      | _, _, _ => none
  | _ => none

/-- `colorsys.rgb_to_hls` of the Python standard library, exactly as
its source reads, on rationals; returns `(h, l, s)`. -/
def colorsys_rgb_to_hls (r g b : ℚ) : ℚ × ℚ × ℚ :=
  let maxc := max r (max g b)
  let minc := min r (min g b)
  let sumc := maxc + minc
  let rangec := maxc - minc
  let l := sumc / 2
  if minc = maxc then (0, l, 0)
  else
    let s := if l ≤ 1 / 2 then rangec / sumc else rangec / (2 - sumc)
    let rc := (maxc - r) / rangec
    let gc := (maxc - g) / rangec
    let bc := (maxc - b) / rangec
    let h0 :=
      if r = maxc then bc - gc
      else if g = maxc then 2 + rc - bc
      else 4 + gc - rc
    (pyMod1 (h0 / 6), l, s)

/-- `DesignPropertiesExtractor.rgb_to_hsl`
(`design_properties_extractor.py`, lines 83-87): scale to `[0,1]`,
convert, return integer `(hue, saturation, lightness)`. -/
def rgb_to_hsl (rgb : Nat × Nat × Nat) : Int × Int × Int :=
  let r := (rgb.1 : ℚ) / 255
  let g := (rgb.2.1 : ℚ) / 255
  let b := (rgb.2.2 : ℚ) / 255
  let hls := colorsys_rgb_to_hls r g b
  (pyInt (hls.1 * 360), pyInt (hls.2.2 * 100), pyInt (hls.2.1 * 100))

/-- The record returned by `categorize_color`. -/
structure ColorInfo where
  category : String
  hue : Int
  saturation : Int
  lightness : Int
  is_green_family : Bool

/-- The `# Determine color category` branch block of
`categorize_color` (`design_properties_extractor.py`, lines 94-107). -/
def chooseCategory (h s l : Int) : String :=
  if l > 90 then "light"
  else if l < 20 then "dark"
  else if s < 20 then "neutral"
  else if 80 ≤ h ∧ h ≤ 140 then "primary_green"
  else if 140 ≤ h ∧ h ≤ 200 then "secondary_green"
  else "accent"

/-- The dictionary `categorize_color` returns for a parsed RGB
triple. -/
def mkColorInfo (rgb : Nat × Nat × Nat) : ColorInfo :=
  let hsl := rgb_to_hsl rgb
  { category := chooseCategory hsl.1 hsl.2.1 hsl.2.2,
    hue := hsl.1, saturation := hsl.2.1, lightness := hsl.2.2,
    is_green_family := decide (80 ≤ hsl.1 ∧ hsl.1 ≤ 200) }

/-- `DesignPropertiesExtractor.categorize_color`
(`design_properties_extractor.py`, lines 89-115); `none` embeds the
uncaught `ValueError` on an input that is not a hex color. -/
def categorize_color (hex_color : String) : Option ColorInfo :=
  (hex_to_rgb hex_color).map mkColorInfo

theorem chooseCategory_cases (h s l : Int) :
    (l > 90 → chooseCategory h s l = "light")
    ∧ (¬ l > 90 → l < 20 → chooseCategory h s l = "dark")
    ∧ (¬ l > 90 → ¬ l < 20 → s < 20 → chooseCategory h s l = "neutral")
    ∧ (¬ l > 90 → ¬ l < 20 → ¬ s < 20 → 80 ≤ h → h ≤ 140 →
        chooseCategory h s l = "primary_green")
    ∧ (¬ l > 90 → ¬ l < 20 → ¬ s < 20 → ¬ (80 ≤ h ∧ h ≤ 140) →
        140 ≤ h → h ≤ 200 → chooseCategory h s l = "secondary_green")
    ∧ (¬ l > 90 → ¬ l < 20 → ¬ s < 20 → ¬ (80 ≤ h ∧ h ≤ 140) →
        ¬ (140 ≤ h ∧ h ≤ 200) → chooseCategory h s l = "accent") := by
  refine ⟨fun h1 => ?_, fun h1 h2 => ?_, fun h1 h2 h3 => ?_,
    fun h1 h2 h3 h4 h5 => ?_, fun h1 h2 h3 h4 h5 h6 => ?_,
    fun h1 h2 h3 h4 h5 => ?_⟩ <;>
    simp only [chooseCategory] <;>
    split_ifs <;> first | rfl | omega

/-- C4: on every 6-digit hex color, `categorize_color` is a pure
deterministic function of the HSL-converted value and fixed
thresholds: calling it twice yields an identical result, the returned
HSL triple is exactly `rgb_to_hsl` of the parsed RGB, and the category
is chosen by the ordered rules lightness > 90 → light, lightness < 20
→ dark, saturation < 20 → neutral, hue in 80-140 → primary_green, hue
in 140-200 → secondary_green, otherwise accent. -/
theorem categorize_color_spec (c : String) (rgb : Nat × Nat × Nat)
    (hv : hex_to_rgb c = some rgb) :
    categorize_color c = categorize_color c
    ∧ ∃ info, categorize_color c = some info
      ∧ (info.hue, info.saturation, info.lightness) = rgb_to_hsl rgb
      ∧ (info.lightness > 90 → info.category = "light")
      ∧ (¬ info.lightness > 90 → info.lightness < 20 →
          info.category = "dark")
      ∧ (¬ info.lightness > 90 → ¬ info.lightness < 20 →
          info.saturation < 20 → info.category = "neutral")
      ∧ (¬ info.lightness > 90 → ¬ info.lightness < 20 →
          ¬ info.saturation < 20 → 80 ≤ info.hue → info.hue ≤ 140 →
          info.category = "primary_green")
      ∧ (¬ info.lightness > 90 → ¬ info.lightness < 20 →
          ¬ info.saturation < 20 → ¬ (80 ≤ info.hue ∧ info.hue ≤ 140) →
          140 ≤ info.hue → info.hue ≤ 200 →
          info.category = "secondary_green")
      ∧ (¬ info.lightness > 90 → ¬ info.lightness < 20 →
          ¬ info.saturation < 20 → ¬ (80 ≤ info.hue ∧ info.hue ≤ 140) →
          ¬ (140 ≤ info.hue ∧ info.hue ≤ 200) →
          info.category = "accent") := by
  have hc := chooseCategory_cases ((rgb_to_hsl rgb).1) ((rgb_to_hsl rgb).2.1)
    ((rgb_to_hsl rgb).2.2)
  refine ⟨rfl, mkColorInfo rgb, by rw [categorize_color, hv]; rfl, rfl,
    hc.1, hc.2.1, hc.2.2.1, hc.2.2.2.1, hc.2.2.2.2.1, hc.2.2.2.2.2⟩

theorem categorize_color_spec_witness :
    hex_to_rgb "#00ff00" = some (0, 255, 0)
    ∧ ∃ info, categorize_color "#00ff00" = some info
        ∧ info.category = "primary_green"
        ∧ (info.hue, info.saturation, info.lightness) = (120, 100, 50) := by
  have hv : hex_to_rgb "#00ff00" = some (0, 255, 0) := by decide
  obtain ⟨-, info, heq, hhsl, -, -, -, hp, -, -⟩ :=
    categorize_color_spec "#00ff00" (0, 255, 0) hv
  have hval : rgb_to_hsl (0, 255, 0) = (120, 100, 50) := by
    norm_num [rgb_to_hsl, colorsys_rgb_to_hls, pyMod1, pyInt]
  rw [hval] at hhsl
  have hh : info.hue = 120 := congrArg Prod.fst hhsl
  have hs : info.saturation = 100 := congrArg (Prod.fst ∘ Prod.snd) hhsl
  have hl : info.lightness = 50 := congrArg (Prod.snd ∘ Prod.snd) hhsl
  refine ⟨hv, info, heq, ?_, by rw [hh, hs, hl]⟩
  exact hp (by omega) (by omega) (by omega) (by omega) (by omega)

end DesignExtractor

/-- The `color_palette['background']` entry (the literal lowercase
string at line 299) of the guidelines built by
`DesignPropertiesExtractor.create_brand_guidelines`
(`design_properties_extractor.py`, lines 286-317). -/
def DesignExtractor.brand_guidelines_background : String := "#ffffff"

namespace Generator

/-- A slide layout of the loaded template, as the assembly code sees
it: its name and which placeholders it offers (`slide.shapes.title`
and `slide.placeholders[1]`). -/
structure Layout where
  name : String
  hasTitle : Bool
  hasBody : Bool

/-- A produced slide: the index of the layout it was added with and
the text written into its title/body placeholders. -/
structure Slide where
  layoutIdx : Nat
  titleText : Option String := none
  bodyText : Option String := none

/-- The presentation object: the template's layouts and the slides
added so far (`prs.slides.add_slide` appends). -/
structure Prs where
  layouts : List Layout
  slides : List Slide

/-- A `<shape>` element of the rendered slide XML, as consumed by the
`root.findall('.//shape')` loop. -/
inductive XShape where
  | title (text : String)
  | body (text : String)
  | other

/-- The `for l in prs.slide_layouts` search of `create_slide_from_xml`
(`enhanced_presentation_generator.py`, lines 316-320), returning the
first layout with the requested name together with its index. -/
def findLayoutAux (i : Nat) (name : String) : List Layout → Option (Nat × Layout)
  | [] => none
  | l :: ls => if l.name == name then some (i, l) else findLayoutAux (i + 1) name ls

/-- The `for element in root.findall('.//shape')` loop
(`enhanced_presentation_generator.py`, lines 331-343): title shapes
write the title placeholder when the layout has one, body shapes write
`placeholders[1]` or log when the lookup raises, other shapes are
ignored. -/
def applyShapes (layout : Layout) (slide : Slide) (log : List String) :
    List XShape → Slide × List String
  | [] => (slide, log)
  | .title t :: rest =>
      if layout.hasTitle then
        applyShapes layout { slide with titleText := some t } log rest
      else
        applyShapes layout slide log rest
  | .body t :: rest =>
      if layout.hasBody then
        applyShapes layout { slide with bodyText := some t } log rest
      else
        applyShapes layout slide
          (log ++ ["Could not find body placeholder for XML content"]) rest
  | .other :: rest => applyShapes layout slide log rest

/-- `prs.slides.add_slide(layout)` followed by XML parsing and the
shape loop: the slide is added before parsing, so a parse failure
(caught by the outer `except`) still leaves the new slide in place,
unfilled. -/
def addSlideWithLayout (prs : Prs) (i : Nat) (layout : Layout)
    (parse : Except String (List XShape)) (log0 : List String) :
    Prs × List String :=
  let slide0 : Slide := { layoutIdx := i }
  match parse with
  | .error e =>
      ({ prs with slides := prs.slides ++ [slide0] },
        log0 ++ ["Error creating slide from XML: " ++ e])
  | .ok shapes =>
      let filled := applyShapes layout slide0 log0 shapes
      ({ prs with slides := prs.slides ++ [filled.1] }, filled.2)

/-- `EnhancedPresentationGenerator.create_slide_from_xml`
(`enhanced_presentation_generator.py`, lines 305-346).  The XML parse
outcome of the already-rendered slide string is passed in as data
(`Except.error` embeds an `etree` exception).  When the named layout
is absent the code falls back to `prs.slide_layouts[0]`; on an empty
layout list that subscript raises and is caught by the outer
`except`, logging and adding nothing. -/
def create_slide_from_xml (prs : Prs) (parse : Except String (List XShape))
    (layout_name : String) : Prs × List String :=
  match findLayoutAux 0 layout_name prs.layouts with
  | some (i, layout) => addSlideWithLayout prs i layout parse []
  | none =>
      match prs.layouts with
      | [] => (prs, ["Error creating slide from XML: list index out of range"])
      | l0 :: _ =>
          addSlideWithLayout prs 0 l0 parse
            ["Layout '" ++ layout_name ++ "' not found. Using default."]

theorem applyShapes_layoutIdx (layout : Layout) (slide : Slide)
    (log : List String) (shapes : List XShape) :
    ((applyShapes layout slide log shapes).1).layoutIdx = slide.layoutIdx := by
  induction shapes generalizing slide log with
  | nil => rfl
  | cons sh rest ih =>
      cases sh with
      | title t =>
          by_cases h : layout.hasTitle = true <;>
            simp [applyShapes, h, ih]
      | body t =>
          by_cases h : layout.hasBody = true <;>
            simp [applyShapes, h, ih]
      | other => simp [applyShapes, ih]

theorem findLayoutAux_none (name : String) (ls : List Layout) (i : Nat)
    (h : ∀ l ∈ ls, l.name ≠ name) :
    findLayoutAux i name ls = none := by
  induction ls generalizing i with
  | nil => rfl
  | cons l rest ih =>
      have hl : (l.name == name) = false := by
        simpa using h l (List.mem_cons_self l rest)
      simp only [findLayoutAux, hl, Bool.false_eq_true, if_false]
      exact ih _ fun x hx => h x (List.mem_cons_of_mem l hx)

/-- C5: slide assembly never raises when the requested layout name
matches no layout of the template: `create_slide_from_xml` (a total
function here, mirroring its catch-all handler) falls back to the
layout at index 0 and still appends exactly one slide, which uses
layout index 0, whatever the XML parse outcome. -/
theorem create_slide_from_xml_fallback (prs : Prs)
    (parse : Except String (List XShape)) (layout_name : String)
    (hmiss : ∀ l ∈ prs.layouts, l.name ≠ layout_name)
    (hne : prs.layouts ≠ []) :
    ∃ s, (create_slide_from_xml prs parse layout_name).1.slides
          = prs.slides ++ [s]
      ∧ s.layoutIdx = 0 := by
  rw [create_slide_from_xml, findLayoutAux_none layout_name prs.layouts 0 hmiss]
  cases hl : prs.layouts with
  | nil => exact absurd hl hne
  | cons l0 rest =>
      cases parse with
      | error e => exact ⟨{ layoutIdx := 0 }, rfl, rfl⟩
      | ok shapes =>
          refine ⟨_, rfl, ?_⟩
          exact applyShapes_layoutIdx l0 { layoutIdx := 0 } _ shapes

/-- A one-layout template for concrete runs. -/
def examplePrs : Prs :=
  { layouts := [{ name := "Title Slide", hasTitle := true, hasBody := true }],
    slides := [] }

theorem create_slide_from_xml_fallback_witness :
    ∃ s, (create_slide_from_xml examplePrs (.ok [.title "Hello"])
            "Nonexistent Layout").1.slides = examplePrs.slides ++ [s]
      ∧ s.layoutIdx = 0 :=
  create_slide_from_xml_fallback examplePrs (.ok [.title "Hello"])
    "Nonexistent Layout" (by simp [examplePrs]) (by simp [examplePrs])

end Generator

namespace Generator

/-- The `slide_type` dispatch chain of `generate_enhanced_presentation`
(`enhanced_presentation_generator.py`, lines 391-418): layout name and
template file for a content slide's type, `("", "")` for an
unrecognized type. -/
def layoutForType (slide_type : String) : String × String :=
  if slide_type == "title_and_content" then
    ("Title and Content", "title_and_content_slide.xml")
  else if slide_type == "section_header" then
    ("Section Header", "section_header_slide.xml")
  else if slide_type == "two_content" then
    ("Two Content", "two_content_slide.xml")
  else if slide_type == "comparison" then
    ("Comparison", "comparison_slide.xml")
  else if slide_type == "title_only" then
    ("Title Only", "title_only_slide.xml")
  else if slide_type == "blank" then
    ("Blank", "blank_slide.xml")
  else if slide_type == "content_with_caption" then
    ("Content with Caption", "content_with_caption_slide.xml")
  else if slide_type == "picture_with_caption" then
    ("Picture with Caption", "picture_with_caption_slide.xml")
  else ("", "")

/-- One entry of `presentation_data['slides']` together with the
outcome of its substitution pass: the outer `Except` is
`jinja_env.get_template(...)` / `template.render(...)` (an `error`
embeds a raised substitution-engine exception), the inner one is the
XML parse outcome consumed by `create_slide_from_xml`. -/
structure SlideInfo where
  slide_type : String
  render : Except String (Except String (List XShape))

/-- A content-slide entry whose type the dispatch chain recognizes. -/
def recognizedType (info : SlideInfo) : Prop :=
  (layoutForType info.slide_type).1 ≠ "" ∧ (layoutForType info.slide_type).2 ≠ ""

instance (info : SlideInfo) : Decidable (recognizedType info) := by
  unfold recognizedType
  infer_instance

/-- The `for slide_info in presentation_data.get('slides', [])` loop of
`generate_enhanced_presentation`
(`enhanced_presentation_generator.py`, lines 389-425), threading the
presentation and `slide_count`.  The substitution pass runs OUTSIDE
any `try`, so its failure propagates out of the whole loop
(`Except.error`); only the XML-stage failures are absorbed inside
`create_slide_from_xml`. -/
def generateContentSlidesAux (prs : Prs) (count : Nat) :
    List SlideInfo → Except String (Prs × Nat)
  | [] => .ok (prs, count)
  | info :: rest =>
      if recognizedType info then
        match info.render with
        | .error e => .error e
        | .ok parse =>
            let step := create_slide_from_xml prs parse
              (layoutForType info.slide_type).1
            generateContentSlidesAux step.1 (count + 1) rest
      else
        generateContentSlidesAux prs count rest

/-- The content-slide portion of
`EnhancedPresentationGenerator.generate_enhanced_presentation`
(`enhanced_presentation_generator.py`, lines 389-427). -/
def generate_content_slides (prs : Prs) (infos : List SlideInfo) :
    Except String (Prs × Nat) :=
  generateContentSlidesAux prs 0 infos

/-- A recognized content slide whose substitution pass raises. -/
def exampleBadInfo : SlideInfo :=
  { slide_type := "title_and_content", render := .error "TemplateSyntaxError" }

/-- A recognized content slide whose substitution pass succeeds. -/
def exampleGoodInfo : SlideInfo :=
  { slide_type := "title_and_content",
    render := .ok (.ok [.title "Hi", .body "There"]) }

/-- A template containing the "Title and Content" layout. -/
def examplePrsTC : Prs :=
  { layouts :=
      [{ name := "Title and Content", hasTitle := true, hasBody := true }],
    slides := [] }

/-- C6 counterexample: a substitution-engine failure on one slide does
NOT abort only that slide: with a failing slide followed by a healthy
one, the whole run aborts with the engine's error and the healthy
slide is never produced, while the healthy slide alone yields a
presentation with one slide. -/
theorem render_failure_aborts_run_counterexample :
    generate_content_slides examplePrsTC [exampleBadInfo, exampleGoodInfo]
      = .error "TemplateSyntaxError"
    ∧ (generate_content_slides examplePrsTC [exampleGoodInfo]).isOk = true
    ∧ ∀ prs2 n, generate_content_slides examplePrsTC
        [exampleBadInfo, exampleGoodInfo] ≠ .ok (prs2, n) := by
  refine ⟨rfl, rfl, ?_⟩
  intro prs2 n h
  have he : generate_content_slides examplePrsTC [exampleBadInfo, exampleGoodInfo]
      = Except.error "TemplateSyntaxError" := rfl
  rw [he] at h
  exact Except.noConfusion h

end Generator

namespace Generator

theorem generateContentSlidesAux_ok (infos : List SlideInfo) :
    ∀ (prs : Prs) (count : Nat),
      (∀ info ∈ infos, recognizedType info → (info.render).isOk = true) →
      (generateContentSlidesAux prs count infos).isOk = true := by
  induction infos with
  | nil => intro prs count _; rfl
  | cons info rest ih =>
      intro prs count h
      by_cases hr : recognizedType info
      · have hOk := h info (List.mem_cons_self info rest) hr
        cases hrnd : info.render with
        | error e => rw [hrnd] at hOk; exact Bool.noConfusion hOk
        | ok parse =>
            simp only [generateContentSlidesAux, if_pos hr, hrnd]
            exact ih _ _ fun i hi => h i (List.mem_cons_of_mem info hi)
      · simp only [generateContentSlidesAux, if_neg hr]
        exact ih _ _ fun i hi => h i (List.mem_cons_of_mem info hi)

theorem generateContentSlidesAux_error (pre : List SlideInfo)
    (bad : SlideInfo) (post : List SlideInfo) (e : String)
    (hrec : recognizedType bad) (hbad : bad.render = .error e) :
    ∀ (prs : Prs) (count : Nat),
      (∀ info ∈ pre, recognizedType info → (info.render).isOk = true) →
      generateContentSlidesAux prs count (pre ++ bad :: post) = .error e := by
  induction pre with
  | nil =>
      intro prs count _
      simp only [List.nil_append, generateContentSlidesAux, if_pos hrec, hbad]
  | cons info rest ih =>
      intro prs count h
      by_cases hr : recognizedType info
      · have hOk := h info (List.mem_cons_self info rest) hr
        cases hrnd : info.render with
        | error e2 => rw [hrnd] at hOk; exact Bool.noConfusion hOk
        | ok parse =>
            simp only [List.cons_append, generateContentSlidesAux, if_pos hr,
              hrnd]
            exact ih _ _ fun i hi => h i (List.mem_cons_of_mem info hi)
      · simp only [List.cons_append, generateContentSlidesAux, if_neg hr]
        exact ih _ _ fun i hi => h i (List.mem_cons_of_mem info hi)

/-- C6 amended: during slide assembly only failures inside the XML
slide-assembly stage are absorbed per slide; a substitution-engine
failure while rendering a recognized content slide's template
propagates out of the loop and aborts the whole remaining run, so no
later slide is produced.  When every recognized slide's substitution
pass succeeds, the run completes. -/
theorem generate_content_slides_render_boundary (prs : Prs) :
    (∀ (pre post : List SlideInfo) (bad : SlideInfo) (e : String),
      recognizedType bad → bad.render = .error e →
      (∀ info ∈ pre, recognizedType info → (info.render).isOk = true) →
      generate_content_slides prs (pre ++ bad :: post) = .error e)
    ∧ (∀ infos : List SlideInfo,
      (∀ info ∈ infos, recognizedType info → (info.render).isOk = true) →
      (generate_content_slides prs infos).isOk = true) :=
  ⟨fun pre post bad e hrec hbad hpre =>
      generateContentSlidesAux_error pre bad post e hrec hbad prs 0 hpre,
    fun infos h => generateContentSlidesAux_ok infos prs 0 h⟩

theorem generate_content_slides_render_boundary_witness :
    generate_content_slides examplePrsTC [exampleGoodInfo, exampleBadInfo]
      = .error "TemplateSyntaxError"
    ∧ (generate_content_slides examplePrsTC [exampleGoodInfo]).isOk = true := by
  have h := generate_content_slides_render_boundary examplePrsTC
  constructor
  · have hpre : ∀ info ∈ [exampleGoodInfo],
        recognizedType info → (info.render).isOk = true := by
      intro info hi _
      rw [List.mem_singleton] at hi
      rw [hi]
      rfl
    exact h.1 [exampleGoodInfo] [] exampleBadInfo "TemplateSyntaxError"
      (by decide) rfl hpre
  · refine h.2 [exampleGoodInfo] ?_
    intro info hi _
    rw [List.mem_singleton] at hi
    rw [hi]
    rfl

end Generator

namespace Generator

/-- One paragraph of a text frame. -/
structure Paragraph where
  text : String
  level : Nat
deriving Repr, DecidableEq

/-- python-pptx `TextFrame.clear()`: one empty paragraph remains. -/
def textFrameClear (_tf : List Paragraph) : List Paragraph :=
  [{ text := "", level := 0 }]

/-- python-pptx `text_frame.text = s` on a single-line string: the
frame's content is replaced by one paragraph holding `s`. -/
def textFrameSetText (_tf : List Paragraph) (s : String) : List Paragraph :=
  [{ text := s, level := 0 }]

/-- python-pptx `p = text_frame.add_paragraph(); p.text = s;
p.level = lvl`: appends one paragraph. -/
def addParagraph (tf : List Paragraph) (s : String) (lvl : Nat) :
    List Paragraph :=
  tf ++ [{ text := s, level := lvl }]

/-- The `for i, item in enumerate(content)` loop of
`create_enhanced_content_slide`
(`enhanced_presentation_generator.py`, lines 285-292): item 0 is
assigned to `text_frame.text`, later items become appended paragraphs
with `level = 0`.  `render` is the `process_text_with_jinja` pass
applied to each item. -/
def applyBulletItems (render : String → String) (tf : List Paragraph) :
    Nat → List String → List Paragraph
  | _, [] => tf
  | i, item :: rest =>
      let processed := render item
      if i = 0 then
        applyBulletItems render (textFrameSetText tf processed) (i + 1) rest
      else
        applyBulletItems render (addParagraph tf processed 0) (i + 1) rest

/-- The list branch of the content-placeholder update of
`create_enhanced_content_slide`
(`enhanced_presentation_generator.py`, lines 279-292):
`text_frame.clear()` followed by the enumerate loop. -/
def bindBulletListContent (render : String → String) (tf : List Paragraph)
    (content : List String) : List Paragraph :=
  applyBulletItems render (textFrameClear tf) 0 content

theorem applyBulletItems_pos (render : String → String)
    (items : List String) :
    ∀ (tf : List Paragraph) (i : Nat), i ≠ 0 →
      applyBulletItems render tf i items
        = tf ++ items.map (fun item => { text := render item, level := 0 }) := by
  induction items with
  | nil => intro tf i _; simp [applyBulletItems]
  | cons item rest ih =>
      intro tf i hi
      simp only [applyBulletItems, if_neg hi, List.map_cons]
      rw [ih _ (i + 1) (Nat.succ_ne_zero i)]
      simp [addParagraph]

/-- C7: for every non-empty list bound as bullet-list content, the
first item replaces the content placeholder's existing text (the
result does not depend on the frame's prior paragraphs), each
subsequent item is appended as a new paragraph at indentation level 0,
and the items appear in output order with no re-sorting: the resulting
paragraphs are exactly the substitution-rendered items, in order, all
at level 0. -/
theorem bindBulletListContent_spec (render : String → String)
    (tf : List Paragraph) (content : List String) (hne : content ≠ []) :
    bindBulletListContent render tf content
      = content.map (fun item => { text := render item, level := 0 }) := by
  cases content with
  | nil => exact absurd rfl hne
  | cons item rest =>
      rw [bindBulletListContent]
      simp only [applyBulletItems, if_pos rfl, List.map_cons]
      rw [applyBulletItems_pos render rest _ 1 Nat.one_ne_zero]
      rfl

theorem bindBulletListContent_spec_witness :
    bindBulletListContent id [{ text := "old text", level := 2 }]
        ["first", "second", "third"]
      = [{ text := "first", level := 0 }, { text := "second", level := 0 },
          { text := "third", level := 0 }] := by
  rw [bindBulletListContent_spec id [{ text := "old text", level := 2 }]
    ["first", "second", "third"] (by simp)]
  rfl

/-- The background-styling condition of `_create_styled_slide`
(`enhanced_presentation_generator.py`, lines 177-190):
`bg_color = color_scheme.get("background", None)` then
`if bg_color and bg_color != "#FFFFFF"` decides whether a solid
background fill is applied to the new slide. -/
def background_fill_applied (bg_color : Option String) : Bool :=
  match bg_color with
  | none => false
  | some s => s != "" && s != "#FFFFFF"

/-- C8 counterexample: the comparison guarding the background fill is
a case-sensitive match against the literal `"#FFFFFF"`, so the
lowercase `"#ffffff"` — the very value `create_brand_guidelines`
stores as the palette's background, and a spelling of pure white
(it parses to RGB (255,255,255)) — still gets a background fill
applied. -/
theorem background_fill_white_counterexample :
    DesignExtractor.hex_to_rgb DesignExtractor.brand_guidelines_background
      = some (255, 255, 255)
    ∧ background_fill_applied
        (some DesignExtractor.brand_guidelines_background) = true := by
  constructor
  · decide
  · decide

/-- C8 amended: the background fill from the design specification's
color scheme is applied if and only if a background entry is set,
non-empty, and differs from the exact uppercase string `"#FFFFFF"`;
pure white spelled any other way (for instance the lowercase
`"#ffffff"` that `create_brand_guidelines` itself emits) is NOT
exempt. -/
theorem background_fill_applied_iff (bg_color : Option String) :
    background_fill_applied bg_color = true
      ↔ ∃ s, bg_color = some s ∧ s ≠ "" ∧ s ≠ "#FFFFFF" := by
  cases bg_color with
  | none => simp [background_fill_applied]
  | some s => simp [background_fill_applied]

end Generator

namespace TemplateAnalyzer

/-- A parsed XML element: qualified tag name (namespace resolution of
`ElementTree` folded into the name, e.g. `p:sldSz`), attributes,
children in document order. -/
inductive XmlElem where
  | elem (tag : String) (attrs : List (String × String))
      (children : List XmlElem)

/-- The element's tag. -/
def tagOf : XmlElem → String
  | .elem t _ _ => t

/-- `Element.get(key)`: the attribute's value, or `None` when the
attribute is absent. -/
def getAttr : XmlElem → String → Option String
  | .elem _ attrs _, key => attrs.lookup key

/-- First matching element of a list, in document order. -/
def findFirstChild (t : String) : List XmlElem → Option XmlElem
  | [] => none
  | c :: cs => if tagOf c == t then some c else findFirstChild t cs

/-- `root.find(path, namespaces)` for a single-tag path: first DIRECT
child with that tag. -/
def findChild : XmlElem → String → Option XmlElem
  | .elem _ _ children, t => findFirstChild t children

/-- `get_slide_dimensions` (`template_analyzer.py`, lines 5-20) on an
already-parsed presentation root: the returned dict, a key-to-value
list with `Option String` values (`None` embeds an absent `cx`/`cy`
attribute). -/
def get_slide_dimensions (root : XmlElem) : List (String × Option String) :=
  match findChild root "p:sldSz" with
  | some sld_sz => [("width", getAttr sld_sz "cx"), ("height", getAttr sld_sz "cy")]
  | none => []

/-- C9: for every presentation document, `get_slide_dimensions`
returns the empty mapping — no `width` or `height` keys, and no
exception, the embedding being total — when the `p:sldSz` element is
absent among the root's children, and otherwise returns exactly that
element's `cx` attribute as `width` and `cy` attribute as
`height`. -/
theorem get_slide_dimensions_spec (root : XmlElem) :
    (findChild root "p:sldSz" = none →
      get_slide_dimensions root = []
      ∧ ∀ kv ∈ get_slide_dimensions root, False)
    ∧ (∀ e, findChild root "p:sldSz" = some e →
      get_slide_dimensions root
        = [("width", getAttr e "cx"), ("height", getAttr e "cy")]) := by
  constructor
  · intro hnone
    have h : get_slide_dimensions root = [] := by
      rw [get_slide_dimensions, hnone]
    exact ⟨h, by rw [h]; intro kv hkv; exact absurd hkv (List.not_mem_nil kv)⟩
  · intro e he
    rw [get_slide_dimensions, he]

/-- A presentation root with no `p:sldSz` child. -/
def exampleRootNoSize : XmlElem :=
  .elem "p:presentation" [] [.elem "p:sldIdLst" [] []]

/-- A presentation root with a `p:sldSz` child carrying `cx`/`cy`. -/
def exampleRootWithSize : XmlElem :=
  .elem "p:presentation" []
    [.elem "p:sldIdLst" [] [],
      .elem "p:sldSz" [("cx", "12192000"), ("cy", "6858000")] []]

theorem get_slide_dimensions_spec_witness :
    get_slide_dimensions exampleRootNoSize = []
    ∧ get_slide_dimensions exampleRootWithSize
      = [("width", some "12192000"), ("height", some "6858000")] := by
  constructor
  · exact ((get_slide_dimensions_spec exampleRootNoSize).1 rfl).1
  · exact (get_slide_dimensions_spec exampleRootWithSize).2
      (.elem "p:sldSz" [("cx", "12192000"), ("cy", "6858000")] []) rfl

end TemplateAnalyzer
